import Mathlib

/-!
Verification of the query-construction and aggregation engine of the
economic-dashboard data portal (source: src/economic_dashboard/database.py).

The development shallowly embeds:
  - the query builder inside `get_data` (SQL text + bound parameter map,
    database.py lines 120-315); SQL literals are reproduced with their
    whitespace condensed to single spaces, which affects no claim (claims
    compare whole query texts built by the same embedding);
  - the row-level fiscal-year derivation of the fiscal_year SELECT
    (database.py lines 191-198);
  - the group-level aggregated VALUE of the quarterly / annual / fiscal_year
    SELECTs (the CASE expressions at database.py lines 172-176, 232-236,
    203-207) over an explicit list of joined fact rows;
  - `execute_query` (database.py lines 49-85) including the pandas
    `pivot_table(index=[TIME_PERIOD, LOCATION_NAME], columns=INDICATOR_NAME,
    values=VALUE, aggfunc=first).reset_index()` reshaping step.  The pandas
    semantics modelled: `first` takes the first non-NaN value of each
    (TIME_PERIOD, LOCATION_NAME, INDICATOR_NAME) group, groups whose
    aggregate is NaN are dropped (`agged.dropna(how="all")`), unstacking
    fills missing combinations with NaN, and all-NaN columns are dropped.
    pandas sorts group keys; the embedding keeps them in first-occurrence
    order instead, which no claim (all are about counts, membership and
    cell contents) can observe.
-/

namespace DataPortal

/-- A single tabular cell: a string, a number, or SQL NULL / pandas NaN. -/
inductive Cell where
  | str (s : String)
  | num (q : ℚ)
  | null
deriving DecidableEq, Repr

/-- A materialized query result: column names plus rows of cells
(the pandas DataFrame built at database.py line 70). -/
structure DataFrame where
  columns : List String
  rows : List (List Cell)
deriving DecidableEq, Repr

/-- A value bound to a named SQL parameter (oracledb bind dictionary). -/
inductive BindValue where
  | int (i : Int)
  | str (s : String)
deriving DecidableEq, Repr

/-- The bound-parameter map `params` of `get_data`, in insertion order. -/
abbrev Params := List (String × BindValue)

/-- Embedding of Oracle `UPPER` on the ASCII indicator-type names used here. -/
def sqlUpper (s : String) : String := ⟨s.data.map Char.toUpper⟩

/-- `map_table = {'CPI': 'FACT_CPI', 'BOP': 'FACT_BOP'}` (database.py line 122). -/
def map_table : List (String × String) := [("CPI", "FACT_CPI"), ("BOP", "FACT_BOP")]

/-- The monthly SELECT (database.py lines 140-159), whitespace condensed. -/
def monthlyQuery (factTable : String) : String :=
  "SELECT t.TIME_PERIOD, t.YEAR, t.MONTH, t.QUARTER, l.LOCATION_NAME, i.INDICATOR_NAME, i.INDICATOR_TYPE, i.DESCRIPTION, f.VALUE, u.UNIT FROM "
    ++ factTable
    ++ " f JOIN DIM_TIME t ON f.TIME_ID = t.TIME_ID JOIN DIM_LOCATION l ON f.LOCATION_ID = l.LOCATION_ID JOIN DIM_INDICATOR i ON f.INDICATOR_ID = i.INDICATOR_ID LEFT JOIN DIM_UNITS u ON f.UNIT_ID = u.UNIT_ID WHERE t.YEAR BETWEEN :start_year AND :end_year AND l.LOCATION_NAME = :location"

/-- The quarterly SELECT (database.py lines 163-185), whitespace condensed. -/
def quarterlyQuery (factTable flowAgg : String) : String :=
  "SELECT t.YEAR || \x27Q\x27 || t.QUARTER AS TIME_PERIOD, t.YEAR, t.QUARTER, l.LOCATION_NAME, i.INDICATOR_NAME, i.INDICATOR_TYPE, i.DESCRIPTION, CASE WHEN UPPER(i.INDICATOR_TYPE) = \x27FLOW\x27 THEN "
    ++ flowAgg
    ++ "(f.VALUE) WHEN UPPER(i.INDICATOR_TYPE) = \x27STOCK\x27 THEN MAX(CASE WHEN t.IS_QUARTER_END = 1 THEN f.VALUE END) ELSE "
    ++ flowAgg
    ++ "(f.VALUE) END AS VALUE, u.UNIT FROM "
    ++ factTable
    ++ " f JOIN DIM_TIME t ON f.TIME_ID = t.TIME_ID JOIN DIM_LOCATION l ON f.LOCATION_ID = l.LOCATION_ID JOIN DIM_INDICATOR i ON f.INDICATOR_ID = i.INDICATOR_ID LEFT JOIN DIM_UNITS u ON f.UNIT_ID = u.UNIT_ID WHERE t.YEAR BETWEEN :start_year AND :end_year AND l.LOCATION_NAME = :location"

/-- The fiscal-year SELECT (database.py lines 189-220), whitespace condensed. -/
def fiscalYearQuery (factTable flowAgg : String) : String :=
  "SELECT \x27FY\x27 || CASE WHEN t.MONTH >= 7 THEN t.YEAR || \x27/\x27 || (t.YEAR + 1) ELSE (t.YEAR - 1) || \x27/\x27 || t.YEAR END AS TIME_PERIOD, CASE WHEN t.MONTH >= 7 THEN t.YEAR ELSE t.YEAR - 1 END AS FISCAL_YEAR, l.LOCATION_NAME, i.INDICATOR_NAME, i.INDICATOR_TYPE, i.DESCRIPTION, CASE WHEN UPPER(i.INDICATOR_TYPE) = \x27FLOW\x27 THEN "
    ++ flowAgg
    ++ "(f.VALUE) WHEN UPPER(i.INDICATOR_TYPE) = \x27STOCK\x27 THEN MAX(CASE WHEN t.MONTH = 6 THEN f.VALUE END) ELSE "
    ++ flowAgg
    ++ "(f.VALUE) END AS VALUE, u.UNIT FROM "
    ++ factTable
    ++ " f JOIN DIM_TIME t ON f.TIME_ID = t.TIME_ID JOIN DIM_LOCATION l ON f.LOCATION_ID = l.LOCATION_ID JOIN DIM_INDICATOR i ON f.INDICATOR_ID = i.INDICATOR_ID LEFT JOIN DIM_UNITS u ON f.UNIT_ID = u.UNIT_ID WHERE ((t.YEAR = :start_year - 1 AND t.MONTH >= 7) OR (t.YEAR BETWEEN :start_year AND :end_year) OR (t.YEAR = :end_year + 1 AND t.MONTH <= 6)) AND l.LOCATION_NAME = :location"

/-- The annual SELECT (database.py lines 224-245), whitespace condensed. -/
def annualQuery (factTable flowAgg : String) : String :=
  "SELECT t.YEAR AS TIME_PERIOD, t.YEAR, l.LOCATION_NAME, i.INDICATOR_NAME, i.INDICATOR_TYPE, i.DESCRIPTION, CASE WHEN UPPER(i.INDICATOR_TYPE) = \x27FLOW\x27 THEN "
    ++ flowAgg
    ++ "(f.VALUE) WHEN UPPER(i.INDICATOR_TYPE) = \x27STOCK\x27 THEN MAX(CASE WHEN t.MONTH = 12 THEN f.VALUE END) ELSE "
    ++ flowAgg
    ++ "(f.VALUE) END AS VALUE, u.UNIT FROM "
    ++ factTable
    ++ " f JOIN DIM_TIME t ON f.TIME_ID = t.TIME_ID JOIN DIM_LOCATION l ON f.LOCATION_ID = l.LOCATION_ID JOIN DIM_INDICATOR i ON f.INDICATOR_ID = i.INDICATOR_ID LEFT JOIN DIM_UNITS u ON f.UNIT_ID = u.UNIT_ID WHERE t.YEAR BETWEEN :start_year AND :end_year AND l.LOCATION_NAME = :location"

/-- The month-of-year filter appended at database.py line 255. -/
def monthClause : String := " AND t.MONTH BETWEEN :start_month AND :end_month"

/-- `','.join([f':ind\x7bi\x7d' for i in range(n)])` (database.py lines 263, 272). -/
def placeholders (tag : String) (n : Nat) : String :=
  String.intercalate "," ((List.range n).map (fun i => ":" ++ tag ++ toString i))

/-- The IN-clause on indicator names (database.py line 264). -/
def indClause (names : List String) : String :=
  " AND i.INDICATOR_NAME IN (" ++ placeholders "ind" names.length ++ ")"

/-- The IN-clause on unit names (database.py line 273). -/
def unitClause (names : List String) : String :=
  " AND u.UNIT IN (" ++ placeholders "unit" names.length ++ ")"

/-- One bound parameter per list element (database.py lines 265-266, 274-275). -/
def nameParams (tag : String) (names : List String) : Params :=
  names.enum.map (fun p => (tag ++ toString p.1, BindValue.str p.2))

/-- The GROUP BY / ORDER BY suffix chosen at database.py lines 278-311,
whitespace condensed. -/
def groupClause (aggregation : String) : String :=
  if aggregation = "quarterly" then
    " GROUP BY t.YEAR, t.QUARTER, l.LOCATION_NAME, i.INDICATOR_NAME, i.INDICATOR_TYPE, i.DESCRIPTION, u.UNIT ORDER BY t.YEAR, t.QUARTER, i.INDICATOR_NAME"
  else if aggregation = "fiscal_year" then
    " GROUP BY CASE WHEN t.MONTH >= 7 THEN t.YEAR ELSE t.YEAR - 1 END, CASE WHEN t.MONTH >= 7 THEN t.YEAR || \x27/\x27 || (t.YEAR + 1) ELSE (t.YEAR - 1) || \x27/\x27 || t.YEAR END, l.LOCATION_NAME, i.INDICATOR_NAME, i.INDICATOR_TYPE, i.DESCRIPTION, u.UNIT ORDER BY CASE WHEN t.MONTH >= 7 THEN t.YEAR ELSE t.YEAR - 1 END, i.INDICATOR_NAME"
  else if aggregation = "annual" then
    " GROUP BY t.YEAR, l.LOCATION_NAME, i.INDICATOR_NAME, i.INDICATOR_TYPE, i.DESCRIPTION, u.UNIT ORDER BY t.YEAR, i.INDICATOR_NAME"
  else
    " ORDER BY t.TIME_PERIOD, l.LOCATION_NAME, i.INDICATOR_NAME"

/-- The SQL text and bound parameters assembled by the body of `get_data`
once the data group has been validated (database.py lines 130-311).
The month filter is guarded by Python truthiness (`if start_month and
end_month`, line 254): it fires only when both are present and non-zero.
The indicator/unit filters are guarded by `if names and len(names) > 0`
(lines 260, 269): absent or empty lists add nothing. -/
def buildQueryParams (factTable dataGroup : String) (startYear endYear : Int)
    (startMonth endMonth : Option Int) (location : String)
    (indicatorNames unitNames : Option (List String))
    (aggregation : String) : String × Params :=
  let flowAgg := if dataGroup = "BOP" then "SUM" else "AVG"
  let base :=
    if aggregation = "monthly" then monthlyQuery factTable
    else if aggregation = "quarterly" then quarterlyQuery factTable flowAgg
    else if aggregation = "fiscal_year" then fiscalYearQuery factTable flowAgg
    else annualQuery factTable flowAgg
  let params : Params :=
    [("start_year", BindValue.int startYear), ("end_year", BindValue.int endYear),
     ("location", BindValue.str location)]
  let step1 : String × Params :=
    match startMonth, endMonth with
    | some sm, some em =>
      if sm ≠ 0 ∧ em ≠ 0 then
        (base ++ monthClause,
         params ++ [("start_month", BindValue.int sm), ("end_month", BindValue.int em)])
      else (base, params)
    | _, _ => (base, params)
  let step2 : String × Params :=
    match indicatorNames with
    | some names =>
      if names = [] then step1
      else (step1.1 ++ indClause names, step1.2 ++ nameParams "ind" names)
    | none => step1
  let step3 : String × Params :=
    match unitNames with
    | some names =>
      if names = [] then step2
      else (step2.1 ++ unitClause names, step2.2 ++ nameParams "unit" names)
    | none => step2
  (step3.1 ++ groupClause aggregation, step3.2)

/-- Outcome of `get_data` up to the point where the statement is handed to
`execute_query`: either the early `st.error(...)` rejection with an empty
result (no SQL ever built, nothing executed), or a built statement that is
then executed. -/
inductive Outcome where
  | error (msg : String)
  | executed (sql : String) (params : Params)
deriving DecidableEq, Repr

/-- `true` iff `get_data` reached query construction and execution. -/
def Outcome.isExecuted : Outcome → Bool
  | .executed _ _ => true
  | .error _ => false

/-- The SQL text of an executed outcome. -/
def Outcome.sql : Outcome → Option String
  | .executed q _ => some q
  | .error _ => none

/-- The bound parameters of an executed outcome. -/
def Outcome.params : Outcome → Option Params
  | .executed _ p => some p
  | .error _ => none

/-- Embedding of `get_data` (database.py lines 88-315) as the statement it
builds and executes, or the early rejection.  Mirrors the source exactly:
the only validation is the `data_group not in map_table` check at line 123;
everything else flows into `buildQueryParams`. -/
def get_data (dataGroup : String) (startYear endYear : Int)
    (startMonth endMonth : Option Int) (location : String)
    (indicatorNames unitNames : Option (List String))
    (aggregation : String) : Outcome :=
  match List.lookup dataGroup map_table with
  | none => .error "Invalid data_group. Use \x27CPI\x27 or \x27BOP\x27"
  | some factTable =>
    let qp := buildQueryParams factTable dataGroup startYear endYear
      startMonth endMonth location indicatorNames unitNames aggregation
    .executed qp.1 qp.2

/-- Row-level fiscal year of the fiscal_year SELECT:
`CASE WHEN t.MONTH >= 7 THEN t.YEAR ELSE t.YEAR - 1 END`
(database.py lines 195-198). -/
def fiscalYearOf (year month : Int) : Int :=
  if 7 ≤ month then year else year - 1

/-- Row-level fiscal label of the fiscal_year SELECT:
`'FY' || CASE WHEN t.MONTH >= 7 THEN t.YEAR || '/' || (t.YEAR + 1)
ELSE (t.YEAR - 1) || '/' || t.YEAR END` (database.py lines 191-194). -/
def fiscalLabel (year month : Int) : String :=
  "FY" ++ (if 7 ≤ month then toString year ++ "/" ++ toString (year + 1)
           else toString (year - 1) ++ "/" ++ toString year)

/-! ## Aggregation semantics of the grouped SELECTs

A `FactRow` is one row of the star-schema join appearing in the FROM/JOIN
block of every `get_data` SELECT: a fact joined to DIM_TIME, DIM_LOCATION,
DIM_INDICATOR and (LEFT) DIM_UNITS. -/

/-- One joined fact row (fact VALUE plus its dimension attributes). -/
structure FactRow where
  year : Int
  month : Int
  quarter : Int
  isQuarterEnd : Bool
  locationName : String
  indicatorName : String
  indicatorType : String
  description : String
  value : ℚ
  unit : Option String
deriving DecidableEq, Repr

/-- The synthesized period of a row under an aggregation level: quarterly
groups by (t.YEAR, t.QUARTER), annual by t.YEAR, fiscal_year by the derived
fiscal year (database.py lines 280, 286-290, 306). -/
inductive Period where
  | quarter (y q : Int)
  | year (y : Int)
  | fiscal (fy : Int)
deriving DecidableEq, Repr

/-- Period component of a row's group key under the given aggregation. -/
def periodOf (aggregation : String) (r : FactRow) : Period :=
  if aggregation = "quarterly" then .quarter r.year r.quarter
  else if aggregation = "fiscal_year" then .fiscal (fiscalYearOf r.year r.month)
  else .year r.year

/-- The full GROUP BY key of the aggregated SELECTs: period plus
(l.LOCATION_NAME, i.INDICATOR_NAME, i.INDICATOR_TYPE, i.DESCRIPTION, u.UNIT)
(database.py lines 280-281, 295-296, 306-307). -/
structure GroupKey where
  period : Period
  locationName : String
  indicatorName : String
  indicatorType : String
  description : String
  unit : Option String
deriving DecidableEq, Repr

/-- Group key of a fact row under the given aggregation. -/
def keyOf (aggregation : String) (r : FactRow) : GroupKey :=
  ⟨periodOf aggregation r, r.locationName, r.indicatorName, r.indicatorType,
   r.description, r.unit⟩

/-- The rows of one GROUP BY group. -/
def groupRows (aggregation : String) (facts : List FactRow) (k : GroupKey) :
    List FactRow :=
  facts.filter (fun r => keyOf aggregation r = k)

/-- Oracle `MAX` over a column that may contain NULLs (here produced by
`CASE WHEN <period-end> THEN f.VALUE END`): NULL entries are skipped and the
result is NULL when no non-NULL entry exists. -/
def sqlMaxFiltered (l : List (Option ℚ)) : Option ℚ :=
  match l.filterMap id with
  | [] => none
  | x :: xs => some (xs.foldl max x)

/-- `SUM(f.VALUE)` or `AVG(f.VALUE)` over a group, chosen by the
`flow_agg` string computed at database.py lines 132-135. -/
def flowAggValue (flowAgg : String) (vs : List ℚ) : ℚ :=
  if flowAgg = "SUM" then vs.sum else vs.sum / vs.length

/-- The row filter inside the STOCK branch of the CASE expression:
`t.IS_QUARTER_END = 1` (quarterly, line 174), `t.MONTH = 6` (fiscal_year,
line 205), `t.MONTH = 12` (annual, line 234). -/
def stockPick (aggregation : String) (r : FactRow) : Bool :=
  if aggregation = "quarterly" then r.isQuarterEnd
  else if aggregation = "fiscal_year" then decide (r.month = 6)
  else decide (r.month = 12)

/-- The aggregated VALUE of one group, embedding the CASE expression of the
quarterly / fiscal_year / annual SELECTs (database.py lines 172-176,
203-207, 232-236):
`CASE WHEN UPPER(i.INDICATOR_TYPE) = 'FLOW' THEN <flow_agg>(f.VALUE)
      WHEN UPPER(i.INDICATOR_TYPE) = 'STOCK'
        THEN MAX(CASE WHEN <period-end> THEN f.VALUE END)
      ELSE <flow_agg>(f.VALUE) END`. -/
def aggregatedValue (dataGroup aggregation : String) (facts : List FactRow)
    (k : GroupKey) : Option ℚ :=
  let flowAgg := if dataGroup = "BOP" then "SUM" else "AVG"
  let rows := groupRows aggregation facts k
  if sqlUpper k.indicatorType = "FLOW" then
    some (flowAggValue flowAgg (rows.map FactRow.value))
  else if sqlUpper k.indicatorType = "STOCK" then
    sqlMaxFiltered (rows.map (fun r => if stockPick aggregation r then some r.value else none))
  else
    some (flowAggValue flowAgg (rows.map FactRow.value))

/-! Spec-side counterparts, written from the specification's words, to be
compared with the source-embedded `aggregatedValue`. -/

/-- Spec wording: "FLOW → SUM (for BOP) or AVG (for CPI)". -/
def specFlowValue (dataGroup : String) (vs : List ℚ) : ℚ :=
  if dataGroup = "BOP" then vs.sum else vs.sum / vs.length

/-- Spec wording: the period-end month is "the quarter-end month for
quarterly, month 12 for annual, month 6 for fiscal_year".  The quarter-end
month of quarter q is its third month, 3*q. -/
def specPeriodEnd (aggregation : String) (r : FactRow) : Bool :=
  if aggregation = "quarterly" then decide (r.month = 3 * r.quarter)
  else if aggregation = "fiscal_year" then decide (r.month = 6)
  else decide (r.month = 12)

/-- Spec wording: "STOCK → the single observation at the period-end month,
NULL when that observation is absent". -/
def specStockValue (aggregation : String) (rows : List FactRow) : Option ℚ :=
  ((rows.filter (specPeriodEnd aggregation)).head?).map FactRow.value

/-- Spec wording for the aggregated VALUE of a group: FLOW → SUM/AVG by
data group, STOCK → the period-end observation, other/unknown type → the
FLOW rule. -/
def specAggregatedValue (dataGroup aggregation : String) (rows : List FactRow)
    (itype : String) : Option ℚ :=
  if sqlUpper itype = "FLOW" then some (specFlowValue dataGroup (rows.map FactRow.value))
  else if sqlUpper itype = "STOCK" then specStockValue aggregation rows
  else some (specFlowValue dataGroup (rows.map FactRow.value))

/-! ## `execute_query` and the long-to-wide pivot -/

/-- The columns whose joint presence triggers the pivot
(database.py line 73). -/
def required_cols : List String :=
  ["TIME_PERIOD", "LOCATION_NAME", "INDICATOR_NAME", "VALUE"]

/-- Cell of a row under a named column (pandas column access; `Cell.null`
for a missing column never occurs on the inputs the claims quantify over). -/
def cellAt (cols : List String) (row : List Cell) (c : String) : Cell :=
  row.getD (List.indexOf c cols) Cell.null

/-- One record per input row, keyed by the pivot's index and column fields:
(TIME_PERIOD, LOCATION_NAME, INDICATOR_NAME, VALUE). -/
def longRecords (df : DataFrame) : List (Cell × Cell × Cell × Cell) :=
  df.rows.map (fun r =>
    (cellAt df.columns r "TIME_PERIOD", cellAt df.columns r "LOCATION_NAME",
     cellAt df.columns r "INDICATOR_NAME", cellAt df.columns r "VALUE"))

/-- pandas `first` aggregation of a group's VALUEs: the first non-NaN value,
NaN when there is none (GroupBy.first skips missing values). -/
def firstNonNull (vs : List Cell) : Cell :=
  (vs.filter (fun v => v ≠ Cell.null)).headD Cell.null

/-- The distinct (TIME_PERIOD, LOCATION_NAME, INDICATOR_NAME) group keys of
the records, in order of first occurrence. -/
def tripleKeys (recs : List (Cell × Cell × Cell × Cell)) :
    List (Cell × Cell × Cell) :=
  (recs.map (fun x => (x.1, x.2.1, x.2.2.1))).dedup

/-- All VALUEs of one (TIME_PERIOD, LOCATION_NAME, INDICATOR_NAME) group,
in record order. -/
def tripleValues (recs : List (Cell × Cell × Cell × Cell))
    (k : Cell × Cell × Cell) : List Cell :=
  recs.filterMap (fun x => if (x.1, x.2.1, x.2.2.1) = k then some x.2.2.2 else none)

/-- Group keys surviving pandas `agged.dropna(how="all")`: those whose
`first` aggregate is not NaN. -/
def aggedKeys (recs : List (Cell × Cell × Cell × Cell)) :
    List (Cell × Cell × Cell) :=
  (tripleKeys recs).filter (fun k => firstNonNull (tripleValues recs k) ≠ Cell.null)

/-- The (TIME_PERIOD, LOCATION_NAME) index pairs of the pivoted table. -/
def pivotPairs (recs : List (Cell × Cell × Cell × Cell)) : List (Cell × Cell) :=
  ((aggedKeys recs).map (fun k => (k.1, k.2.1))).dedup

/-- The INDICATOR_NAME values that become columns of the pivoted table. -/
def pivotInds (recs : List (Cell × Cell × Cell × Cell)) : List Cell :=
  ((aggedKeys recs).map (fun k => k.2.2)).dedup

/-- Column label of an indicator cell (indicator names are strings). -/
def cellName : Cell → String
  | .str s => s
  | .num q => toString q
  | .null => ""

/-- The pivot of database.py lines 75-80:
`df.pivot_table(index=['TIME_PERIOD','LOCATION_NAME'],
columns='INDICATOR_NAME', values='VALUE', aggfunc='first').reset_index()`,
with the pandas semantics described in the header. -/
def pivot_table (df : DataFrame) : DataFrame :=
  let recs := longRecords df
  { columns := "TIME_PERIOD" :: "LOCATION_NAME" :: (pivotInds recs).map cellName
    rows := (pivotPairs recs).map (fun p =>
      p.1 :: p.2 :: (pivotInds recs).map
        (fun i => firstNonNull (tripleValues recs (p.1, p.2, i)))) }

/-- The conditional reshaping step of `execute_query`
(database.py lines 72-80): pivot only when wide format was requested, the
frame is non-empty, and every required column is present. -/
def widen (wideFormat : Bool) (df : DataFrame) : DataFrame :=
  if wideFormat && !df.rows.isEmpty then
    if required_cols.all (fun c => df.columns.contains c) then pivot_table df
    else df
  else df

/-- The empty DataFrame returned on failure (database.py line 85). -/
def emptyDataFrame : DataFrame := ⟨[], []⟩

/-- Result of `execute_query`: the returned frame plus the message passed to
`st.error`, if any. -/
structure ExecResult where
  df : DataFrame
  errorReport : Option String
deriving DecidableEq, Repr

/-- Embedding of `execute_query` (database.py lines 49-85).  The statement
execution and row fetch are represented by their outcome `fetch`: either the
raised exception's message or the cursor description plus fetched rows.  The
`try/except Exception` turns any failure into `st.error(f"Query error: ...")`
plus an empty frame; nothing propagates. -/
def execute_query (fetch : Except String (List String × List (List Cell)))
    (wideFormat : Bool) : ExecResult :=
  match fetch with
  | .error e => ⟨emptyDataFrame, some ("Query error: " ++ e)⟩
  | .ok cr => ⟨widen wideFormat ⟨cr.1, cr.2⟩, none⟩

/-! Spec-side counterparts for the pivot shape claims. -/

/-- Distinct (TIME_PERIOD, LOCATION_NAME) pairs owning at least one
non-missing VALUE, in order of first such record. -/
def pairsWithValue (recs : List (Cell × Cell × Cell × Cell)) :
    List (Cell × Cell) :=
  (recs.filterMap (fun x =>
    if x.2.2.2 ≠ Cell.null then some (x.1, x.2.1) else none)).dedup

/-- Distinct INDICATOR_NAME values owning at least one non-missing VALUE. -/
def indsWithValue (recs : List (Cell × Cell × Cell × Cell)) : List Cell :=
  (recs.filterMap (fun x =>
    if x.2.2.2 ≠ Cell.null then some x.2.2.1 else none)).dedup

/-- Spec wording for a wide cell: the first non-missing VALUE among the input
records carrying this (TIME_PERIOD, LOCATION_NAME) pair and this indicator;
an empty/missing cell when there is none. -/
def specCell (recs : List (Cell × Cell × Cell × Cell)) (p : Cell × Cell)
    (i : Cell) : Cell :=
  firstNonNull (recs.filterMap (fun x =>
    if x.1 = p.1 ∧ x.2.1 = p.2 ∧ x.2.2.1 = i then some x.2.2.2 else none))

/-! ## Concrete inputs used by counterexamples and witnesses -/

/-- A long result whose columns are a strict superset of the four required
ones (DESCRIPTION added), as produced e.g. by a monthly query. -/
def supersetLongFrame : DataFrame :=
  ⟨["TIME_PERIOD", "LOCATION_NAME", "INDICATOR_NAME", "VALUE", "DESCRIPTION"],
   [[.str "2021M01", .str "Tanzania", .str "CPI Headline", .num 5, .str "d"]]⟩

/-- A long result with exactly the four required columns whose single record
carries a NULL VALUE (as a STOCK aggregate with a missing period-end row
does). -/
def nullValueLongFrame : DataFrame :=
  ⟨["TIME_PERIOD", "LOCATION_NAME", "INDICATOR_NAME", "VALUE"],
   [[.str "2021Q1", .str "Tanzania", .str "Reserves", Cell.null]]⟩

/-- A long result with one complete cell and one missing cell for the same
(TIME_PERIOD, LOCATION_NAME) pair. -/
def mixedLongFrame : DataFrame :=
  ⟨["TIME_PERIOD", "LOCATION_NAME", "INDICATOR_NAME", "VALUE"],
   [[.str "2021Q1", .str "Tanzania", .str "Exports", .num 7],
    [.str "2021Q1", .str "Tanzania", .str "Reserves", Cell.null]]⟩

/-- Monthly STOCK observations Jan=10, Feb=20, Mar=30 of one series in one
quarter (March is the quarter-end month). -/
def stockQuarterFacts : List FactRow :=
  [⟨2021, 1, 1, false, "Tanzania", "Reserves", "STOCK", "d", 10, some "USD Million"⟩,
   ⟨2021, 2, 1, false, "Tanzania", "Reserves", "STOCK", "d", 20, some "USD Million"⟩,
   ⟨2021, 3, 1, true, "Tanzania", "Reserves", "STOCK", "d", 30, some "USD Million"⟩]

/-- The group key of `stockQuarterFacts` under quarterly aggregation. -/
def stockQuarterKey : GroupKey :=
  ⟨.quarter 2021 1, "Tanzania", "Reserves", "STOCK", "d", some "USD Million"⟩

/-! ## Helper lemmas -/

/-- On a valid data group, `get_data` builds and executes the statement
assembled by `buildQueryParams`. -/
theorem get_data_valid (dg ft : String) (sy ey : Int) (sm em : Option Int)
    (loc : String) (inds units : Option (List String)) (agg : String)
    (h : List.lookup dg map_table = some ft) :
    get_data dg sy ey sm em loc inds units agg =
      Outcome.executed
        (buildQueryParams ft dg sy ey sm em loc inds units agg).1
        (buildQueryParams ft dg sy ey sm em loc inds units agg).2 := by
  unfold get_data
  rw [h]

/-- The month filter lengthens the SQL text under every aggregation. -/
theorem buildQueryParams_month_sql_ne (ft dg : String) (sy ey sm em : Int)
    (loc : String) (inds units : Option (List String)) (agg : String)
    (hsm : sm ≠ 0) (hem : em ≠ 0) :
    (buildQueryParams ft dg sy ey (some sm) (some em) loc inds units agg).1 ≠
      (buildQueryParams ft dg sy ey none none loc inds units agg).1 := by
  have hmc : monthClause.length = 48 := by decide
  intro h
  apply_fun String.length at h
  simp only [buildQueryParams, if_pos (And.intro hsm hem)] at h
  cases inds with
  | none =>
    cases units with
    | none => simp [String.length_append, hmc] at h
    | some us =>
      by_cases hus : us = [] <;>
        simp [hus, String.length_append, hmc] at h
  | some is0 =>
    by_cases his : is0 = [] <;>
      cases units with
      | none => simp [his, String.length_append, hmc] at h
      | some us =>
        by_cases hus : us = [] <;>
          simp [his, hus, String.length_append, hmc] at h

/-- The pandas `first` aggregate of a value list is non-missing exactly when
some value in the list is non-missing. -/
theorem firstNonNull_ne_null_iff (vs : List Cell) :
    firstNonNull vs ≠ Cell.null ↔ ∃ v ∈ vs, v ≠ Cell.null := by
  unfold firstNonNull
  cases h : vs.filter (fun v => v ≠ Cell.null) with
  | nil =>
    simp only [List.headD_nil, ne_eq, not_true_eq_false, false_iff, not_exists]
    intro v hv
    have hm : v ∈ vs.filter (fun v => v ≠ Cell.null) :=
      List.mem_filter.mpr ⟨hv.1, by simpa using hv.2⟩
    rw [h] at hm
    exact absurd hm (List.not_mem_nil v)
  | cons a as =>
    have ha : a ∈ vs.filter (fun v => v ≠ Cell.null) := h ▸ List.mem_cons_self a as
    obtain ⟨hav, han⟩ := List.mem_filter.mp ha
    simp only [List.headD_cons]
    exact ⟨fun _ => ⟨a, hav, by simpa using han⟩, fun _ => by simpa using han⟩

/-- Projections of the surviving pivot group keys are exactly projections of
the key triples of records with a non-missing VALUE. -/
theorem mem_aggedKeys_map {β : Type} [DecidableEq β]
    (recs : List (Cell × Cell × Cell × Cell)) (f : Cell × Cell × Cell → β)
    (b : β) :
    b ∈ (aggedKeys recs).map f ↔
      ∃ x ∈ recs, x.2.2.2 ≠ Cell.null ∧ f (x.1, x.2.1, x.2.2.1) = b := by
  constructor
  · intro hb
    obtain ⟨k, hk, rfl⟩ := List.mem_map.mp hb
    obtain ⟨_, hpred⟩ := List.mem_filter.mp hk
    have hne : firstNonNull (tripleValues recs k) ≠ Cell.null := by simpa using hpred
    obtain ⟨v, hv, hvn⟩ := (firstNonNull_ne_null_iff _).mp hne
    obtain ⟨x, hx, hxe⟩ := List.mem_filterMap.mp hv
    by_cases hc : (x.1, x.2.1, x.2.2.1) = k
    · rw [if_pos hc] at hxe
      exact ⟨x, hx, Option.some.inj hxe ▸ hvn, by rw [hc]⟩
    · rw [if_neg hc] at hxe
      exact absurd hxe (by simp)
  · rintro ⟨x, hx, hvn, rfl⟩
    apply List.mem_map.mpr
    refine ⟨(x.1, x.2.1, x.2.2.1), List.mem_filter.mpr ⟨?_, ?_⟩, rfl⟩
    · exact List.mem_dedup.mpr (List.mem_map.mpr ⟨x, hx, rfl⟩)
    · have hv : x.2.2.2 ∈ tripleValues recs (x.1, x.2.1, x.2.2.1) :=
        List.mem_filterMap.mpr ⟨x, hx, if_pos rfl⟩
      simpa using (firstNonNull_ne_null_iff _).mpr ⟨x.2.2.2, hv, hvn⟩

/-- Membership in a guarded filterMap over the records. -/
theorem mem_filterMap_guard {β : Type} [DecidableEq β]
    (recs : List (Cell × Cell × Cell × Cell))
    (g : Cell × Cell × Cell × Cell → β) (b : β) :
    b ∈ recs.filterMap (fun x => if x.2.2.2 ≠ Cell.null then some (g x) else none) ↔
      ∃ x ∈ recs, x.2.2.2 ≠ Cell.null ∧ g x = b := by
  simp only [List.mem_filterMap]
  constructor
  · rintro ⟨x, hx, heq⟩
    by_cases hc : x.2.2.2 = Cell.null
    · rw [if_neg (not_not_intro hc)] at heq
      exact absurd heq (by simp)
    · rw [if_pos hc] at heq
      exact ⟨x, hx, hc, Option.some.inj heq⟩
  · rintro ⟨x, hx, hv, rfl⟩
    exact ⟨x, hx, if_pos hv⟩

/-- Two lists with the same members have dedups of the same length. -/
theorem dedup_length_eq {β : Type} [DecidableEq β] (l₁ l₂ : List β)
    (h : ∀ b, b ∈ l₁ ↔ b ∈ l₂) : l₁.dedup.length = l₂.dedup.length := by
  rw [← List.card_toFinset, ← List.card_toFinset]
  congr 1
  ext b
  simp only [List.mem_toFinset]
  exact h b

/-- The pivoted index pairs are exactly as many as the distinct input pairs
owning a non-missing VALUE. -/
theorem pivotPairs_length (recs : List (Cell × Cell × Cell × Cell)) :
    (pivotPairs recs).length = (pairsWithValue recs).length := by
  apply dedup_length_eq
  intro b
  exact Iff.trans (mem_aggedKeys_map recs (fun k => (k.1, k.2.1)) b)
    (mem_filterMap_guard recs (fun x => (x.1, x.2.1)) b).symm

/-- The pivoted indicator columns are exactly as many as the distinct input
indicators owning a non-missing VALUE. -/
theorem pivotInds_length (recs : List (Cell × Cell × Cell × Cell)) :
    (pivotInds recs).length = (indsWithValue recs).length := by
  apply dedup_length_eq
  intro b
  exact Iff.trans (mem_aggedKeys_map recs (fun k => k.2.2) b)
    (mem_filterMap_guard recs (fun x => x.2.2.1) b).symm

/-- The spec-side wide cell equals the pandas aggregate of the record
group's VALUEs. -/
theorem specCell_eq (recs : List (Cell × Cell × Cell × Cell))
    (p : Cell × Cell) (i : Cell) :
    specCell recs p i = firstNonNull (tripleValues recs (p.1, p.2, i)) := by
  unfold specCell tripleValues
  congr 1
  apply congrArg (fun f => List.filterMap f recs)
  funext x
  exact if_congr (by simp [Prod.ext_iff]) rfl rfl

/-- Guarded filterMap of row values is the map over the filtered rows. -/
theorem filterMap_guard_eq (p : FactRow → Bool) (rows : List FactRow) :
    rows.filterMap (fun r => if p r then some r.value else none) =
      (rows.filter p).map FactRow.value := by
  induction rows with
  | nil => rfl
  | cons a as ih => by_cases hp : p a <;> simp [hp, List.filter_cons, ih]

/-- Oracle MAX over the period-end-guarded column equals the unique
period-end observation when the group holds at most one such row. -/
theorem stock_single (p : FactRow → Bool) (rows : List FactRow)
    (h : (rows.filter p).length ≤ 1) :
    sqlMaxFiltered (rows.map (fun r => if p r then some r.value else none)) =
      ((rows.filter p).head?).map FactRow.value := by
  have hf : (rows.map (fun r => if p r then some r.value else none)).filterMap id
      = (rows.filter p).map FactRow.value := by
    rw [List.filterMap_map]
    exact filterMap_guard_eq p rows
  unfold sqlMaxFiltered
  rw [hf]
  cases hl : rows.filter p with
  | nil => rfl
  | cons a as =>
    cases as with
    | nil => simp
    | cons b bs =>
      rw [hl] at h
      simp at h

/-! ## Claim theorems -/

/-- C3: under fiscal_year aggregation a row with MONTH ≥ 7 is assigned
fiscal year YEAR with label FY{YEAR}/{YEAR+1}, a row with MONTH < 7 is
assigned YEAR−1 with label FY{YEAR−1}/{YEAR}; (2021, month 8) and
(2022, month 3) both receive the label FY2021/2022. -/
theorem fiscal_year_assignment (y m : Int) :
    (7 ≤ m → fiscalYearOf y m = y) ∧
    (m < 7 → fiscalYearOf y m = y - 1) ∧
    fiscalLabel y m =
      "FY" ++ toString (fiscalYearOf y m) ++ "/" ++ toString (fiscalYearOf y m + 1) ∧
    fiscalLabel 2021 8 = "FY2021/2022" ∧
    fiscalLabel 2022 3 = "FY2021/2022" := by
  refine ⟨fun h => by simp [fiscalYearOf, h], fun h => ?_, ?_, by decide, by decide⟩
  · rw [fiscalYearOf, if_neg (by omega)]
  · by_cases h : 7 ≤ m
    · simp [fiscalLabel, fiscalYearOf, h, String.append_assoc]
    · simp [fiscalLabel, fiscalYearOf, h, String.append_assoc]

/-- Closed witness for `fiscal_year_assignment` at (2021, month 8). -/
theorem fiscal_year_assignment_witness :
    fiscalYearOf 2021 8 = 2021 ∧ fiscalYearOf 2022 3 = 2022 - 1 :=
  ⟨(fiscal_year_assignment 2021 8).1 (by decide),
   (fiscal_year_assignment 2022 3).2.1 (by decide)⟩

/-- C6: on any execution/fetch error, `execute_query` returns the empty
frame and reports a query error carrying the underlying message; every
outcome a caller can observe is either an error-free frame or the empty
frame with an error report (nothing else propagates). -/
theorem execute_query_error_boundary (e : String) (wide : Bool) :
    execute_query (Except.error e) wide =
      ⟨emptyDataFrame, some ("Query error: " ++ e)⟩ ∧
    ∀ fetch, (execute_query fetch wide).errorReport = none ∨
      ∃ msg, execute_query fetch wide = ⟨emptyDataFrame, some msg⟩ := by
  refine ⟨rfl, fun fetch => ?_⟩
  cases fetch with
  | error e2 => exact Or.inr ⟨_, rfl⟩
  | ok cr => exact Or.inl rfl

/-- C7: any data group outside CPI/BOP is rejected by `get_data` with the
invalid-argument error before any SQL text is constructed (the `Outcome.error`
branch carries no statement and nothing is executed). -/
theorem invalid_data_group_rejected (dg : String) (sy ey : Int)
    (sm em : Option Int) (loc : String) (inds units : Option (List String))
    (agg : String) (h1 : dg ≠ "CPI") (h2 : dg ≠ "BOP") :
    get_data dg sy ey sm em loc inds units agg =
      Outcome.error "Invalid data_group. Use \x27CPI\x27 or \x27BOP\x27" := by
  unfold get_data
  have h : List.lookup dg map_table = none := by
    have e1 : (dg == "CPI") = false := beq_eq_false_iff_ne.mpr h1
    have e2 : (dg == "BOP") = false := beq_eq_false_iff_ne.mpr h2
    simp [map_table, List.lookup, e1, e2]
  rw [h]

/-- Closed witness for `invalid_data_group_rejected` at data group XYZ. -/
theorem invalid_data_group_rejected_witness :
    get_data "XYZ" 2020 2030 none none "Tanzania" none none "monthly" =
      Outcome.error "Invalid data_group. Use \x27CPI\x27 or \x27BOP\x27" :=
  invalid_data_group_rejected "XYZ" 2020 2030 none none "Tanzania" none none
    "monthly" (by decide) (by decide)

/-- C8 counterexample: with startYear 2025 > endYear 2020 the source does not
reject the request — `get_data` reaches query construction and execution,
refuting the claimed InvalidArgument rejection. -/
theorem reversed_year_range_not_rejected :
    (get_data "CPI" 2025 2020 none none "Tanzania" none none "monthly").isExecuted
      = true := rfl

/-- C8 amended: `get_data` performs no year-range validation: for every call
with a valid data group and startYear > endYear, the query is still built and
executed (no InvalidArgument rejection occurs). -/
theorem reversed_year_range_executes (dg : String) (sy ey : Int)
    (sm em : Option Int) (loc : String) (inds units : Option (List String))
    (agg : String) (hdg : dg = "CPI" ∨ dg = "BOP") (_hy : ey < sy) :
    ∃ q p, get_data dg sy ey sm em loc inds units agg =
      Outcome.executed q p := by
  rcases hdg with rfl | rfl <;> exact ⟨_, _, rfl⟩

/-- Closed witness for `reversed_year_range_executes`. -/
theorem reversed_year_range_executes_witness :
    (2020 : Int) < 2025 ∧
    ∃ q p, get_data "CPI" 2025 2020 none none "Tanzania" none none "monthly" =
      Outcome.executed q p :=
  ⟨by decide, reversed_year_range_executes "CPI" 2025 2020 none none "Tanzania"
    none none "monthly" (Or.inl rfl) (by decide)⟩

/-- C9: supplying an empty indicator list adds no IN-clause and yields
exactly the same outcome (SQL text and bound parameters) as omitting the
filter; the same holds for an empty unit list. -/
theorem empty_filter_lists_no_clause (dg : String) (sy ey : Int)
    (sm em : Option Int) (loc : String) (other : Option (List String))
    (agg : String) :
    get_data dg sy ey sm em loc (some []) other agg =
      get_data dg sy ey sm em loc none other agg ∧
    get_data dg sy ey sm em loc other (some []) agg =
      get_data dg sy ey sm em loc other none agg := by
  constructor <;>
    (unfold get_data; cases hL : List.lookup dg map_table <;> rfl)

/-- C10: when exactly one month bound is supplied, no month restriction is
added: the outcome (SQL text and bound parameters) is identical to the call
with both bounds omitted, the supplied bound being silently ignored. -/
theorem single_month_bound_ignored (dg : String) (sy ey m : Int)
    (loc : String) (inds units : Option (List String)) (agg : String) :
    get_data dg sy ey (some m) none loc inds units agg =
      get_data dg sy ey none none loc inds units agg ∧
    get_data dg sy ey none (some m) loc inds units agg =
      get_data dg sy ey none none loc inds units agg := by
  constructor <;>
    (unfold get_data; cases hL : List.lookup dg map_table <;> rfl)

set_option maxRecDepth 16384 in
/-- C2 counterexample: under fiscal_year aggregation the SQL text with both
month bounds supplied differs from the SQL text without them, refuting the
claim that they are identical. -/
theorem fiscal_month_filter_counterexample :
    (get_data "BOP" 2020 2024 (some 1) (some 6) "Tanzania" none none
        "fiscal_year").sql ≠
      (get_data "BOP" 2020 2024 none none "Tanzania" none none
        "fiscal_year").sql := by decide

/-- C2 amended: the month-of-year restriction is applied under every
aggregation, fiscal_year included: whenever both (non-zero) bounds are
supplied, the SQL text differs from the unbounded text and the parameter map
gains the two month bindings. -/
theorem month_filter_applies_under_fiscal_year (dg : String) (sy ey sm em : Int)
    (loc : String) (inds units : Option (List String)) (agg : String)
    (hdg : dg = "CPI" ∨ dg = "BOP") (hsm : sm ≠ 0) (hem : em ≠ 0) :
    (get_data dg sy ey (some sm) (some em) loc inds units agg).sql ≠
      (get_data dg sy ey none none loc inds units agg).sql ∧
    (get_data dg sy ey (some sm) (some em) loc none none agg).params =
      (get_data dg sy ey none none loc none none agg).params.map
        (fun ps => ps ++
          [("start_month", BindValue.int sm), ("end_month", BindValue.int em)]) := by
  obtain ⟨ft, hft⟩ : ∃ ft, List.lookup dg map_table = some ft := by
    rcases hdg with rfl | rfl <;> exact ⟨_, rfl⟩
  rw [get_data_valid dg ft sy ey (some sm) (some em) loc inds units agg hft,
      get_data_valid dg ft sy ey none none loc inds units agg hft,
      get_data_valid dg ft sy ey (some sm) (some em) loc none none agg hft,
      get_data_valid dg ft sy ey none none loc none none agg hft]
  constructor
  · intro h
    exact buildQueryParams_month_sql_ne ft dg sy ey sm em loc inds units agg
      hsm hem (Option.some.inj h)
  · simp [buildQueryParams, Outcome.params, if_pos (And.intro hsm hem)]

/-- Closed witness for `month_filter_applies_under_fiscal_year` at a concrete
fiscal_year request. -/
theorem month_filter_applies_under_fiscal_year_witness :
    (get_data "BOP" 2020 2024 (some 2) (some 5) "Tanzania" none none
        "fiscal_year").sql ≠
      (get_data "BOP" 2020 2024 none none "Tanzania" none none
        "fiscal_year").sql ∧
    (get_data "BOP" 2020 2024 (some 2) (some 5) "Tanzania" none none
        "fiscal_year").params =
      (get_data "BOP" 2020 2024 none none "Tanzania" none none
        "fiscal_year").params.map
        (fun ps => ps ++
          [("start_month", BindValue.int 2), ("end_month", BindValue.int 5)]) :=
  month_filter_applies_under_fiscal_year "BOP" 2020 2024 2 5 "Tanzania"
    none none "fiscal_year" (Or.inr rfl) (by decide) (by decide)

/-- C4 counterexample: a result whose columns are a strict superset of the
four required ones (DESCRIPTION added) is pivoted by `execute_query` rather
than returned unchanged, refuting the exactly-four-columns condition. -/
theorem pivot_superset_counterexample :
    (execute_query
        (Except.ok (supersetLongFrame.columns, supersetLongFrame.rows))
        true).df ≠ supersetLongFrame := by decide

/-- C4 amended: the pivot fires exactly when all four required columns are
present (wide format requested, non-empty result) — extra columns such as
DESCRIPTION or UNIT do not disqualify it; only a result missing one of the
four (or an empty result, or long format requested) is returned unchanged. -/
theorem pivot_condition_requires_only_presence (df : DataFrame) :
    (required_cols.all (fun c => df.columns.contains c) = false →
      widen true df = df) ∧
    (df.rows ≠ [] → required_cols.all (fun c => df.columns.contains c) = true →
      widen true df = pivot_table df) ∧
    widen false df = df := by
  refine ⟨fun h => ?_, fun h1 h2 => ?_, by simp [widen]⟩
  · unfold widen
    split
    · rw [if_neg (by simp only [h]; exact Bool.false_ne_true)]
    · rfl
  · unfold widen
    rw [if_pos (by simp [h1]), if_pos h2]

/-- Closed witness for `pivot_condition_requires_only_presence`: the
superset frame is pivoted. -/
theorem pivot_condition_requires_only_presence_witness :
    widen true supersetLongFrame = pivot_table supersetLongFrame :=
  (pivot_condition_requires_only_presence supersetLongFrame).2.1
    (by decide) (by decide)

/-- C5 counterexample: a pivoted input with one distinct
(TIME_PERIOD, LOCATION_NAME) pair whose only VALUE is missing yields zero
output rows, not one row per distinct pair of the input; pandas drops the
all-missing group. -/
theorem pivot_shape_counterexample :
    ((longRecords nullValueLongFrame).map (fun x => (x.1, x.2.1))).dedup.length
        = 1 ∧
    (widen true nullValueLongFrame).rows.length = 0 := by decide

/-- C5 amended: for every pivoted input, the wide output has exactly one row
per distinct (TIME_PERIOD, LOCATION_NAME) pair owning at least one
non-missing VALUE and 2 + (number of distinct INDICATOR_NAME values owning a
non-missing VALUE) columns; each output row carries, per indicator column,
the first non-missing VALUE of its (pair, indicator) record group — an
empty/missing cell when that group has none (so absent pairs are missing
cells, not zeros, and among duplicates the first non-missing VALUE wins);
pairs and indicators all of whose VALUEs are missing are dropped. -/
theorem pivot_shape_invariant (df : DataFrame) :
    (pivot_table df).rows.length = (pairsWithValue (longRecords df)).length ∧
    (pivot_table df).columns.length =
      2 + (indsWithValue (longRecords df)).length ∧
    ∀ p ∈ pivotPairs (longRecords df),
      p.1 :: p.2 ::
          (pivotInds (longRecords df)).map (specCell (longRecords df) p) ∈
        (pivot_table df).rows := by
  refine ⟨?_, ?_, fun p hp => ?_⟩
  · simpa [pivot_table] using pivotPairs_length (longRecords df)
  · have hil := pivotInds_length (longRecords df)
    simp only [pivot_table, List.length_cons, List.length_map]
    omega
  · have hcell : (pivotInds (longRecords df)).map (specCell (longRecords df) p)
        = (pivotInds (longRecords df)).map
            (fun i => firstNonNull (tripleValues (longRecords df) (p.1, p.2, i))) :=
      List.map_congr_left (fun i _ => specCell_eq (longRecords df) p i)
    rw [hcell]
    exact List.mem_map.mpr ⟨p, hp, rfl⟩

/-- Closed witness for `pivot_shape_invariant` on a frame with one present
and one missing cell. -/
theorem pivot_shape_invariant_witness :
    (Cell.str "2021Q1", Cell.str "Tanzania") ∈ pivotPairs (longRecords mixedLongFrame) ∧
    (Cell.str "2021Q1" :: Cell.str "Tanzania" ::
        (pivotInds (longRecords mixedLongFrame)).map
          (specCell (longRecords mixedLongFrame)
            (Cell.str "2021Q1", Cell.str "Tanzania"))) ∈
      (pivot_table mixedLongFrame).rows :=
  ⟨by decide, (pivot_shape_invariant mixedLongFrame).2.2
    (Cell.str "2021Q1", Cell.str "Tanzania") (by decide)⟩

/-- C1: per aggregated group, the VALUE computed by the grouped SELECTs
equals the spec: FLOW → SUM of the in-period values for BOP and AVG for CPI,
STOCK → the single observation at the period-end month (quarter-end month,
month 12, month 6 respectively), NULL when absent, and any other/unknown
indicator type follows the FLOW rule.  The quarter-end flag of DIM_TIME is
assumed to mark exactly the third month of each quarter, and each group is
assumed to hold at most one period-end row (at most one fact per month per
series). -/
theorem aggregated_value_matches_spec (dg agg : String) (facts : List FactRow)
    (k : GroupKey)
    (hdg : dg = "BOP" ∨ dg = "CPI")
    (hagg : agg = "quarterly" ∨ agg = "annual" ∨ agg = "fiscal_year")
    (hqe : ∀ r ∈ facts, r.isQuarterEnd = decide (r.month = 3 * r.quarter))
    (hstock : ((groupRows agg facts k).filter (specPeriodEnd agg)).length ≤ 1) :
    aggregatedValue dg agg facts k =
      specAggregatedValue dg agg (groupRows agg facts k) k.indicatorType := by
  have hflow : flowAggValue (if dg = "BOP" then "SUM" else "AVG")
      ((groupRows agg facts k).map FactRow.value)
      = specFlowValue dg ((groupRows agg facts k).map FactRow.value) := by
    rcases hdg with rfl | rfl <;> simp [flowAggValue, specFlowValue]
  have hpick : ∀ r ∈ groupRows agg facts k, stockPick agg r = specPeriodEnd agg r := by
    intro r hr
    have hrf : r ∈ facts := by
      have hm := hr
      unfold groupRows at hm
      exact (List.mem_filter.mp hm).1
    rcases hagg with rfl | rfl | rfl
    · simp [stockPick, specPeriodEnd, hqe r hrf]
    · simp [stockPick, specPeriodEnd]
    · simp [stockPick, specPeriodEnd]
  unfold aggregatedValue specAggregatedValue
  by_cases hF : sqlUpper k.indicatorType = "FLOW"
  · simp only [hF, if_pos]
    rw [hflow]
  · by_cases hS : sqlUpper k.indicatorType = "STOCK"
    · simp only [hF, hS, if_neg, if_pos, ite_false, ite_true]
      have hmap : (groupRows agg facts k).map
          (fun r => if stockPick agg r then some r.value else none)
          = (groupRows agg facts k).map
              (fun r => if specPeriodEnd agg r then some r.value else none) :=
        List.map_congr_left (fun r hr => by rw [hpick r hr])
      rw [hmap, stock_single (specPeriodEnd agg) (groupRows agg facts k) hstock]
      rfl
    · simp only [hF, hS, ite_false]
      rw [hflow]

/-- Closed witness for `aggregated_value_matches_spec`: the quarterly STOCK
series Jan=10, Feb=20, Mar=30 aggregates to the quarter-end observation. -/
theorem aggregated_value_matches_spec_witness :
    aggregatedValue "BOP" "quarterly" stockQuarterFacts stockQuarterKey =
      specAggregatedValue "BOP" "quarterly"
        (groupRows "quarterly" stockQuarterFacts stockQuarterKey)
        stockQuarterKey.indicatorType ∧
    aggregatedValue "BOP" "quarterly" stockQuarterFacts stockQuarterKey = some 30 :=
  ⟨aggregated_value_matches_spec "BOP" "quarterly" stockQuarterFacts
      stockQuarterKey (Or.inl rfl) (Or.inl rfl) (by decide) (by decide),
   by decide⟩

end DataPortal
